import Mathlib

/-!
Verification of the pogo-painter-web game core against its specification.

The definitions below are a shallow embedding of the repository's three
server routes that own game state:
* the move resolver (`POST /api/games/[id]/move`),
* the start route  (`POST /api/games/[id]/start`),
* the join route   (`POST /api/games/[id]/join`),
together with the timer callbacks those routes schedule with `setTimeout`.

One block of the move route is not embedded: the 10%-probability power-up
reseeding that runs after the response state is computed.  It only ever
sets the power-up fields of one randomly chosen tile that is unpainted and
power-up-free, so it cannot touch any player field, any tile colour, or
the power-up fields of the just-painted target and sprayed tiles — none of
the properties below depend on it.

Database rows are modelled as Lean structures; a db `update where id`
is modelled as a `List.map` touching the rows with that id; an early
`return NextResponse.json({error})` is modelled by returning the error
together with the untouched state.  Random draws made by the routes
(starting position, colour pick, power-up seeding) are passed in as
explicit arguments, since the claims under study do not depend on the
distribution of those draws.
-/

namespace PogoPainter

inductive GameStatus
  | WAITING
  | PLAYING
  | FINISHED
deriving DecidableEq, Repr

inductive PlayerStatus
  | ACTIVE
  | STUNNED
  | ELIMINATED
deriving DecidableEq, Repr

inductive PowerUpType
  | SPEED
  | JUMP
  | SPRAY
deriving DecidableEq, Repr

/-- One `Player` row: id, owning user, colour, position, score, status. -/
structure Player where
  id : String
  userId : String
  color : String
  positionX : Int
  positionY : Int
  score : Int
  status : PlayerStatus
deriving DecidableEq, Repr

/-- One `GameTile` row: board coordinate, paint colour, power-up fields. -/
structure GameTile where
  id : String
  x : Int
  y : Int
  color : Option String
  hasPowerUp : Bool
  powerUpType : Option PowerUpType
deriving DecidableEq, Repr

/-- One `Game` row together with its included `players` and `tiles` relations. -/
structure Game where
  status : GameStatus
  maxPlayers : Int
  timeLimit : Int
  boardSize : Int
  players : List Player
  tiles : List GameTile
deriving DecidableEq, Repr

/-- The distinct error responses of the move route, in source order. -/
inductive MoveError
  | gameNotActive
  | playerNotFound
  | playerNotEligible
  | illegalMove
  | outOfBounds
deriving DecidableEq, Repr

/-- The adjacency test of the move route:
`(dx === 1 && dy === 0) || (dx === 0 && dy === 1) || (dx === 1 && dy === 1)`
with `dx = Math.abs(x - positionX)`, `dy = Math.abs(y - positionY)`. -/
def isValidMove (px py x y : Int) : Bool :=
  let dx := (x - px).natAbs
  let dy := (y - py).natAbs
  (dx == 1 && dy == 0) || (dx == 0 && dy == 1) || (dx == 1 && dy == 1)

/-- The spray filter of the move route:
`Math.abs(t.x - x) <= 1 && Math.abs(t.y - y) <= 1 && !(t.x === x && t.y === y)`. -/
def adjacentFilter (x y : Int) (t : GameTile) : Bool :=
  (t.x - x).natAbs ≤ 1 && (t.y - y).natAbs ≤ 1 && !(t.x == x && t.y == y)

/-- `game.tiles.filter(...)` used by the SPRAY branch. -/
def adjacentTiles (ts : List GameTile) (x y : Int) : List GameTile :=
  ts.filter (adjacentFilter x y)

/-- `db.player.update({where: {id}, data: {status: 'STUNNED'}})`. -/
def stunById (ps : List Player) (pid : String) : List Player :=
  ps.map fun p => if p.id == pid then { p with status := .STUNNED } else p

/-- `db.player.update({where: {id}, data: {positionX, positionY}})`. -/
def setPositionById (ps : List Player) (pid : String) (x y : Int) : List Player :=
  ps.map fun p => if p.id == pid then { p with positionX := x, positionY := y } else p

/-- `db.player.update({where: {id}, data: {score}})`. -/
def setScoreById (ps : List Player) (pid : String) (s : Int) : List Player :=
  ps.map fun p => if p.id == pid then { p with score := s } else p

/-- `db.gameTile.update({where: {id}, data: {color}})` (SPRAY loop body). -/
def paintTileById (ts : List GameTile) (tid : String) (c : String) : List GameTile :=
  ts.map fun t => if t.id == tid then { t with color := some c } else t

/-- The final tile update of the move route:
`data: { color, hasPowerUp: false, powerUpType: null }`. -/
def consumeTileById (ts : List GameTile) (tid : String) (c : String) : List GameTile :=
  ts.map fun t =>
    if t.id == tid then { t with color := some c, hasPowerUp := false, powerUpType := none }
    else t

/-- The SPRAY `for (const tile of adjacentTiles)` loop: one colour update per
adjacent tile row, keyed by that row's id. -/
def sprayPaint (ts : List GameTile) (adj : List GameTile) (c : String) : List GameTile :=
  adj.foldl (fun acc t => paintTileById acc t.id c) ts

/-- The stun duration passed to `setTimeout` on collision, in milliseconds. -/
def stunDurationMs : Nat := 3000

instance {ε α : Type} [DecidableEq ε] [DecidableEq α] : DecidableEq (Except ε α) := fun a b =>
  match a, b with
  | .ok x, .ok y =>
    if h : x = y then isTrue (by simp [h]) else isFalse (by simp [h])
  | .error x, .error y =>
    if h : x = y then isTrue (by simp [h]) else isFalse (by simp [h])
  | .ok _, .error _ => isFalse (by simp)
  | .error _, .ok _ => isFalse (by simp)

/-- Outcome of one call to the move route: the resulting db state, the HTTP
response (`ok` carries `powerUpCollected`), and the stun-expiry timer the
route scheduled, as `(playerId, delayMs)`. -/
structure MoveResult where
  game : Game
  response : Except MoveError (Option PowerUpType)
  stunTimer : Option (String × Nat)
deriving DecidableEq, Repr

/-- `game.players.find(p => p.positionX === x && p.positionY === y && p.id !== playerId)`:
the other player standing on the target tile, if any. -/
def collisionTarget (g : Game) (playerId : String) (x y : Int) : Option Player :=
  g.players.find? fun p => p.positionX == x && p.positionY == y && !(p.id == playerId)

/-- `game.tiles.find(t => t.x === x && t.y === y)`. -/
def targetTileOf (g : Game) (x y : Int) : Option GameTile :=
  g.tiles.find? fun t => t.x == x && t.y == y

/-- The paint-scoring and power-up block of the move route: returns the
updated tile rows, the mover's new score, and `powerUpCollected`.  `tiles`
is the tile snapshot fetched at the start of the request, the one the
route's `find`/`filter` calls read. -/
def resolveTile (tiles : List GameTile) (targetTile : Option GameTile) (player : Player)
    (x y : Int) : List GameTile × Int × Option PowerUpType :=
  match targetTile with
  | none => (tiles, player.score, none)
  | some t =>
    let s1 := if t.color == none || !(t.color == some player.color)
              then player.score + 1 else player.score
    if t.hasPowerUp then
      match t.powerUpType with
      | some .SPEED => (consumeTileById tiles t.id player.color, s1 + 2, some .SPEED)
      | some .JUMP => (consumeTileById tiles t.id player.color, s1 + 2, some .JUMP)
      | some .SPRAY =>
        let adj := adjacentTiles tiles x y
        (consumeTileById (sprayPaint tiles adj player.color) t.id player.color,
         s1 + adj.length, some .SPRAY)
      | none => (consumeTileById tiles t.id player.color, s1, none)
    else (consumeTileById tiles t.id player.color, s1, none)

/-- The post-legality effects of the move route, in source order: stun the
collided player, move the mover, resolve paint and power-ups, write the
mover's score. -/
def applyMove (g : Game) (player : Player) (playerId : String) (x y : Int) : MoveResult :=
  let targetPlayer := collisionTarget g playerId x y
  let players1 :=
    match targetPlayer with
    | some tp => stunById g.players tp.id
    | none => g.players
  let timer := targetPlayer.map fun tp => (tp.id, stunDurationMs)
  let players2 := setPositionById players1 playerId x y
  let outcome := resolveTile g.tiles (targetTileOf g x y) player x y
  let players3 := setScoreById players2 playerId outcome.2.1
  ⟨{ g with players := players3, tiles := outcome.1 }, .ok outcome.2.2, timer⟩

/-- Shallow embedding of `POST /api/games/[id]/move`.  The checks and
updates appear in exactly the source's order: status, player lookup,
player status, adjacency, bounds, then the effects of `applyMove`. -/
def moveRoute (g : Game) (playerId : String) (x y : Int) : MoveResult :=
  if ¬ g.status = .PLAYING then ⟨g, .error .gameNotActive, none⟩
  else
    match g.players.find? (fun p => p.id == playerId) with
    | none => ⟨g, .error .playerNotFound, none⟩
    | some player =>
      if ¬ player.status = .ACTIVE then ⟨g, .error .playerNotEligible, none⟩
      else if ¬ isValidMove player.positionX player.positionY x y then
        ⟨g, .error .illegalMove, none⟩
      else if x < 0 ∨ x ≥ g.boardSize ∨ y < 0 ∨ y ≥ g.boardSize then
        ⟨g, .error .outOfBounds, none⟩
      else applyMove g player playerId x y

/-- The stun-expiry `setTimeout` callback:
`db.player.update({where:{id}, data:{status:'ACTIVE'}})`.  When the row no
longer exists, the update throws and leaves the database unchanged. -/
def fireStunExpiry (g : Game) (pid : String) : Game :=
  if g.players.any (fun p => p.id == pid) then
    { g with players := g.players.map fun p =>
        if p.id == pid then { p with status := .ACTIVE } else p }
  else g

/-- A stun-expiry timer pending with the event loop. -/
structure StunTimer where
  playerId : String
  delayMs : Nat
deriving DecidableEq, Repr

/-- A game state together with the stun-expiry callbacks currently pending.
The move route calls `setTimeout` and discards the returned handle, so the
pending list only ever grows until a timer fires. -/
structure SessionState where
  game : Game
  pendingStuns : List StunTimer
deriving DecidableEq, Repr

/-- One move request applied to a session: runs the move route and records
the stun-expiry timer it scheduled, if any. -/
def moveStep (s : SessionState) (playerId : String) (x y : Int) : SessionState × Except MoveError (Option PowerUpType) :=
  let r := moveRoute s.game playerId x y
  (⟨r.game, s.pendingStuns ++ (r.stunTimer.map fun t => StunTimer.mk t.1 t.2).toList⟩, r.response)

/-- Modelled from the spec: the player-removal operation (`removePlayer` of
spec §4.2, triggered by departure/disconnect) is not present under `src/` —
the HTTP API there has no removal endpoint.  Per the spec it deletes the
player's record.  Its interaction with the move route's stun timer is fixed
by the source: the move route discards its `setTimeout` handle, so no
removal code could cancel the pending callback, hence the pending list is
left untouched. -/
def removePlayer (s : SessionState) (pid : String) : SessionState :=
  { s with game := { s.game with players := s.game.players.filter fun p => !(p.id == pid) } }

/-- Fire the first pending stun-expiry callback of a session. -/
def fireFirstStun (s : SessionState) : SessionState :=
  match s.pendingStuns with
  | [] => s
  | t :: rest => ⟨fireStunExpiry s.game t.playerId, rest⟩

/-- The distinct error responses of the start route, in source order. -/
inductive StartError
  | notWaiting
  | insufficientPlayers
deriving DecidableEq, Repr

/-- Outcome of the start route: resulting db state, response, and the delay
in milliseconds of the `setTimeout` it scheduled (if it scheduled one). -/
structure StartResult where
  game : Game
  response : Except StartError Unit
  finishTimerMs : Option Int
deriving DecidableEq, Repr

/-- Shallow embedding of `POST /api/games/[id]/start`: rejects unless the
game is `WAITING` with at least two players, then sets status `PLAYING` and
schedules a `setTimeout` of `game.timeLimit * 1000` milliseconds.  It writes
nothing else: tiles and players are untouched. -/
def startRoute (g : Game) : StartResult :=
  if ¬ g.status = .WAITING then ⟨g, .error .notWaiting, none⟩
  else if g.players.length < 2 then ⟨g, .error .insufficientPlayers, none⟩
  else ⟨{ g with status := .PLAYING }, .ok (), some (g.timeLimit * 1000)⟩

/-- The time-limit `setTimeout` callback of the start route:
`db.game.update({where:{id}, data:{status:'FINISHED'}})` — unconditional,
with no check of the game's status at fire time. -/
def fireGameTimeout (g : Game) : Game :=
  { g with status := .FINISHED }

/-- The distinct error responses of the join route, in source order. -/
inductive JoinError
  | notAccepting
  | gameFull
  | duplicateJoin
deriving DecidableEq, Repr

/-- The colour palette of the join route. -/
def defaultColors : List String :=
  ["#FF6B6B", "#4ECDC4", "#45B7D1", "#96CEB4", "#FECA57", "#FF9FF3"]

/-- The random draws and generated ids consumed by one join request. -/
structure JoinRequest where
  userId : String
  playerId : String
  colorPick : Nat
  posX : Int
  posY : Int
  tileIdStem : String
  seed : Nat → Nat → Bool × Option PowerUpType

/-- The tile rows pushed by the join route's double loop over
`0 ≤ x, y < boardSize`; `seed` stands for the two `Math.random()` draws that
decide `hasPowerUp` and `powerUpType` per tile. -/
def freshTiles (boardSize : Int) (stem : String) (seed : Nat → Nat → Bool × Option PowerUpType) : List GameTile :=
  (List.range boardSize.toNat).flatMap fun xx =>
    (List.range boardSize.toNat).map fun yy =>
      { id := stem ++ toString xx ++ "," ++ toString yy
        x := Int.ofNat xx, y := Int.ofNat yy
        color := none
        hasPowerUp := (seed xx yy).1
        powerUpType := (seed xx yy).2 }

/-- Outcome of the join route: resulting db state and response. -/
structure JoinResult where
  game : Game
  response : Except JoinError Player

/-- Shallow embedding of `POST /api/games/[id]/join`: checks status
`WAITING`, capacity, and duplicate identity, in that order; then creates the
player (colour filtered against colours in use, falling back to the first
palette entry) and creates a full `boardSize × boardSize` grid of tiles. -/
def joinRoute (g : Game) (req : JoinRequest) : JoinResult :=
  if ¬ g.status = .WAITING then ⟨g, .error .notAccepting⟩
  else if (g.players.length : Int) ≥ g.maxPlayers then ⟨g, .error .gameFull⟩
  else if g.players.any (fun p => p.userId == req.userId) then ⟨g, .error .duplicateJoin⟩
  else
    let availableColors := defaultColors.filter fun c => !(g.players.any fun p => p.color == c)
    let playerColor := availableColors.getD req.colorPick "#FF6B6B"
    let newPlayer : Player :=
      ⟨req.playerId, req.userId, playerColor, req.posX, req.posY, 0, .ACTIVE⟩
    ⟨{ g with
        players := g.players ++ [newPlayer]
        tiles := g.tiles ++ freshTiles g.boardSize req.tileIdStem req.seed },
     .ok newPlayer⟩

/-- A sequence of join requests applied in order. -/
def joinMany (g : Game) (reqs : List JoinRequest) : Game :=
  reqs.foldl (fun acc r => (joinRoute acc r).game) g

/-- The score of the player with the given id, when present. -/
def scoreOf (g : Game) (pid : String) : Option Int :=
  (g.players.find? fun p => p.id == pid).map (·.score)

/-- The position of the player with the given id, when present. -/
def positionOf (g : Game) (pid : String) : Option (Int × Int) :=
  (g.players.find? fun p => p.id == pid).map fun p => (p.positionX, p.positionY)

/-- The status of the player with the given id, when present. -/
def statusOf (g : Game) (pid : String) : Option PlayerStatus :=
  (g.players.find? fun p => p.id == pid).map (·.status)

/-! ### Concrete states used as witnesses and counterexamples -/

/-- A `PLAYING` game on a 10×10 board: the mover `p1` at (1,1), a second
player `p2` at (2,2), and the two tiles they stand on. -/
def sessionPlaying : Game :=
  ⟨.PLAYING, 4, 120, 10,
   [⟨"p1", "u1", "#FF6B6B", 1, 1, 0, .ACTIVE⟩, ⟨"p2", "u2", "#4ECDC4", 2, 2, 0, .ACTIVE⟩],
   [⟨"t22", 2, 2, none, false, none⟩, ⟨"t11", 1, 1, some "#FF6B6B", false, none⟩]⟩

/-- A `PLAYING` game whose only player already owns the tile they are about
to step on. -/
def ownTileGame : Game :=
  ⟨.PLAYING, 4, 120, 10,
   [⟨"p1", "u1", "#FF6B6B", 1, 1, 5, .ACTIVE⟩],
   [⟨"t22", 2, 2, some "#FF6B6B", false, none⟩]⟩

/-- A 3×3 `PLAYING` game with a SPRAY power-up at (1,1) and five other
tile rows, two of them already painted. -/
def sprayGame : Game :=
  ⟨.PLAYING, 4, 120, 3,
   [⟨"p1", "u1", "R", 0, 0, 0, .ACTIVE⟩],
   [⟨"t00", 0, 0, some "R", false, none⟩, ⟨"t10", 1, 0, some "B", false, none⟩,
    ⟨"t01", 0, 1, none, false, none⟩, ⟨"t11", 1, 1, some "B", true, some .SPRAY⟩,
    ⟨"t21", 2, 1, none, false, none⟩, ⟨"t22", 2, 2, some "R", false, none⟩]⟩

/-- A 3×3 `PLAYING` game with a SPEED power-up at (1,1). -/
def speedGame : Game :=
  ⟨.PLAYING, 4, 120, 3,
   [⟨"p1", "u1", "R", 0, 0, 3, .ACTIVE⟩],
   [⟨"t11", 1, 1, some "R", true, some .SPEED⟩]⟩

/-- A `WAITING` game with two players and one already-painted tile whose
colour "X" belongs to neither player. -/
def waitingGame : Game :=
  ⟨.WAITING, 4, 120, 10,
   [⟨"p1", "u1", "R", 1, 1, 0, .ACTIVE⟩, ⟨"p2", "u2", "B", 2, 2, 0, .ACTIVE⟩],
   [⟨"t00", 0, 0, some "X", false, none⟩]⟩

/-- A `WAITING` game already holding `maxPlayers = 2` players. -/
def fullGame : Game :=
  ⟨.WAITING, 2, 120, 2,
   [⟨"p1", "u1", "R", 0, 0, 0, .ACTIVE⟩, ⟨"p2", "u2", "B", 1, 1, 0, .ACTIVE⟩], []⟩

/-- A `WAITING` game with one player and room for one more. -/
def oneGame : Game :=
  ⟨.WAITING, 2, 120, 2, [⟨"p1", "u1", "R", 0, 0, 0, .ACTIVE⟩], []⟩

/-- A freshly created game: `WAITING`, no players, no tiles. -/
def freshGame : Game := ⟨.WAITING, 4, 120, 2, [], []⟩

/-- Power-up seeding draws that never place a power-up. -/
def noSeed : Nat → Nat → Bool × Option PowerUpType := fun _ _ => (false, none)

def joinReq1 : JoinRequest := ⟨"u1", "p1", 0, 0, 0, "a", noSeed⟩

def joinReq2 : JoinRequest := ⟨"u2", "p2", 0, 1, 1, "b", noSeed⟩

def joinReq3 : JoinRequest := ⟨"u3", "p3", 0, 0, 0, "c", noSeed⟩

/-- A join request re-using the identity `"u1"` already present in `oneGame`. -/
def joinReqDup : JoinRequest := ⟨"u1", "p9", 0, 0, 0, "d", noSeed⟩

/-! ### Lemmas about the row-update helpers -/

theorem find?_pid_map (pid : String) (f : Player → Player) (hid : ∀ p, (f p).id = p.id)
    (l : List Player) :
    (l.map f).find? (fun p => p.id == pid) = (l.find? fun p => p.id == pid).map f := by
  rw [List.find?_map]
  have h : ((fun p : Player => p.id == pid) ∘ f) = fun p : Player => p.id == pid := by
    funext p
    simp [Function.comp, hid]
  rw [h]

theorem find?_coord_map (x y : Int) (f : GameTile → GameTile)
    (hx : ∀ t, (f t).x = t.x) (hy : ∀ t, (f t).y = t.y) (l : List GameTile) :
    (l.map f).find? (fun t => t.x == x && t.y == y) =
      (l.find? fun t => t.x == x && t.y == y).map f := by
  rw [List.find?_map]
  have h : ((fun t : GameTile => t.x == x && t.y == y) ∘ f) =
      fun t : GameTile => t.x == x && t.y == y := by
    funext t
    simp [Function.comp, hx, hy]
  rw [h]

theorem find?_setScoreById (l : List Player) (pid qid : String) (n : Int) :
    (setScoreById l pid n).find? (fun p => p.id == qid) =
      (l.find? fun p => p.id == qid).map
        fun p => if p.id == pid then { p with score := n } else p :=
  find?_pid_map qid _ (fun p => by split <;> rfl) l

theorem find?_setPositionById (l : List Player) (pid qid : String) (x y : Int) :
    (setPositionById l pid x y).find? (fun p => p.id == qid) =
      (l.find? fun p => p.id == qid).map
        fun p => if p.id == pid then { p with positionX := x, positionY := y } else p :=
  find?_pid_map qid _ (fun p => by split <;> rfl) l

theorem find?_stunById (l : List Player) (pid qid : String) :
    (stunById l pid).find? (fun p => p.id == qid) =
      (l.find? fun p => p.id == qid).map
        fun p => if p.id == pid then { p with status := PlayerStatus.STUNNED } else p :=
  find?_pid_map qid _ (fun p => by split <;> rfl) l

theorem find?_consumeTileById (l : List GameTile) (tid : String) (c : String) (x y : Int) :
    (consumeTileById l tid c).find? (fun t => t.x == x && t.y == y) =
      (l.find? fun t => t.x == x && t.y == y).map
        fun t => if t.id == tid
                 then { t with color := some c, hasPowerUp := false, powerUpType := none }
                 else t :=
  find?_coord_map x y _ (fun t => by split <;> rfl)
    (fun t => by split <;> rfl) l

/-- The SPRAY loop paints exactly the rows whose id occurs among the
adjacent rows, with the mover's colour. -/
theorem sprayPaint_eq (adj : List GameTile) (ts : List GameTile) (c : String) :
    sprayPaint ts adj c =
      ts.map fun u => if adj.any (fun v => v.id == u.id)
                      then { u with color := some c } else u := by
  induction adj generalizing ts with
  | nil =>
    simp only [sprayPaint, List.foldl_nil, List.any_nil, Bool.false_eq_true, if_false]
    exact (List.map_id ts).symm
  | cons a rest ih =>
    have h1 : sprayPaint ts (a :: rest) c = sprayPaint (paintTileById ts a.id c) rest c := rfl
    rw [h1, ih, paintTileById, List.map_map]
    apply List.map_congr_left
    intro u _
    by_cases h : u.id = a.id
    · simp [Function.comp, h]
    · have hne : (u.id == a.id) = false := by simp [h]
      have hne' : (a.id == u.id) = false := by simp [Ne.symm h]
      simp [Function.comp, hne, hne', List.any_cons]

/-! ### Structure of the move route -/

/-- A successful move response happens exactly when all five legality
checks pass, and then the route performs `applyMove`. -/
theorem moveRoute_ok_inv {g : Game} {pid : String} {x y : Int} {c : Option PowerUpType}
    (h : (moveRoute g pid x y).response = .ok c) :
    g.status = .PLAYING ∧
      ∃ player, g.players.find? (fun p => p.id == pid) = some player ∧
        player.status = .ACTIVE ∧
        isValidMove player.positionX player.positionY x y = true ∧
        ¬ (x < 0 ∨ x ≥ g.boardSize ∨ y < 0 ∨ y ≥ g.boardSize) ∧
        moveRoute g pid x y = applyMove g player pid x y := by
  by_cases h1 : g.status = .PLAYING
  case neg => simp [moveRoute, h1] at h
  rcases hf : g.players.find? (fun p => p.id == pid) with _ | player
  · simp [moveRoute, h1, hf] at h
  by_cases h2 : player.status = .ACTIVE
  case neg => simp [moveRoute, h1, hf, h2] at h
  by_cases h3 : isValidMove player.positionX player.positionY x y = true
  case neg => simp [moveRoute, h1, hf, h2, h3] at h
  by_cases h4 : x < 0 ∨ x ≥ g.boardSize ∨ y < 0 ∨ y ≥ g.boardSize
  case pos => simp [moveRoute, h1, hf, h2, h3, h4] at h
  exact ⟨h1, player, hf, h2, h3, h4, by simp [moveRoute, h1, hf, h2, h3, h4]⟩

/-- After `applyMove`, the mover's row carries the target position and the
score computed by the paint/power-up block; nothing else about it changed. -/
theorem applyMove_find?_mover {g : Game} {player : Player} {pid : String} {x y : Int}
    (hf : g.players.find? (fun p => p.id == pid) = some player) :
    (applyMove g player pid x y).game.players.find? (fun p => p.id == pid) =
      some { player with positionX := x, positionY := y, score := (resolveTile g.tiles (targetTileOf g x y) player x y).2.1 } := by
  have hpid : (player.id == pid) = true := by simpa using List.find?_some hf
  simp only [applyMove]
  have hp' : player.id = pid := by simpa using hpid
  rcases hc : collisionTarget g pid x y with _ | tp
  · rw [find?_setScoreById, find?_setPositionById, hf]
    simp [hp']
  · have hc' : g.players.find?
        (fun p => p.positionX == x && p.positionY == y && !(p.id == pid)) = some tp := hc
    have htp : (tp.positionX == x && tp.positionY == y && !(tp.id == pid)) = true := by
      simpa using List.find?_some hc'
    have htpne : ¬ pid = tp.id := by
      simp only [Bool.and_eq_true, Bool.not_eq_true'] at htp
      have h2 : ¬ tp.id = pid := by simpa using htp.2
      exact fun hEq => h2 hEq.symm
    rw [find?_setScoreById, find?_setPositionById, find?_stunById, hf]
    simp [hp', htpne]

/-- The mover's score after `applyMove` is the one computed by the
paint/power-up block. -/
theorem scoreOf_applyMove {g : Game} {player : Player} {pid : String} {x y : Int}
    (hf : g.players.find? (fun p => p.id == pid) = some player) :
    scoreOf (applyMove g player pid x y).game pid =
      some (resolveTile g.tiles (targetTileOf g x y) player x y).2.1 := by
  rw [scoreOf, applyMove_find?_mover hf]
  rfl

/-- The mover's position after `applyMove` is the submitted target. -/
theorem positionOf_applyMove {g : Game} {player : Player} {pid : String} {x y : Int}
    (hf : g.players.find? (fun p => p.id == pid) = some player) :
    positionOf (applyMove g player pid x y).game pid = some (x, y) := by
  rw [positionOf, applyMove_find?_mover hf]
  rfl

/-- Paint/power-up resolution on a power-up-free tile: one conditional
score increment and the unconditional repaint-and-clear tile update. -/
theorem resolveTile_no_powerup {tiles : List GameTile} {t : GameTile} {player : Player}
    {x y : Int} (hnopu : t.hasPowerUp = false) :
    resolveTile tiles (some t) player x y =
      (consumeTileById tiles t.id player.color,
       (if t.color == none || !(t.color == some player.color)
        then player.score + 1 else player.score),
       none) := by
  simp [resolveTile, hnopu]

/-- SPEED and JUMP both add a flat +2 on top of the base paint score. -/
theorem resolveTile_speed_jump {tiles : List GameTile} {t : GameTile} {player : Player}
    {x y : Int} (hpu : t.hasPowerUp = true)
    (hk : t.powerUpType = some .SPEED ∨ t.powerUpType = some .JUMP) :
    (resolveTile tiles (some t) player x y).2.1 =
      (if t.color == none || !(t.color == some player.color)
       then player.score + 1 else player.score) + 2 := by
  rcases hk with hk | hk <;> simp [resolveTile, hpu, hk]

/-- SPRAY paints all adjacent rows and adds +1 per adjacent row on top of
the base paint score. -/
theorem resolveTile_spray {tiles : List GameTile} {t : GameTile} {player : Player}
    {x y : Int} (hpu : t.hasPowerUp = true) (hk : t.powerUpType = some .SPRAY) :
    resolveTile tiles (some t) player x y =
      (consumeTileById (sprayPaint tiles (adjacentTiles tiles x y) player.color)
         t.id player.color,
       (if t.color == none || !(t.color == some player.color)
        then player.score + 1 else player.score) + (adjacentTiles tiles x y).length,
       some .SPRAY) := by
  simp [resolveTile, hpu, hk]

/-- `powerUpCollected` is the target tile's power-up kind whenever the
power-up flag was set. -/
theorem resolveTile_collected {tiles : List GameTile} {t : GameTile} {player : Player}
    {x y : Int} (hpu : t.hasPowerUp = true) :
    (resolveTile tiles (some t) player x y).2.2 = t.powerUpType := by
  rcases hk : t.powerUpType with _ | k
  · simp [resolveTile, hpu, hk]
  · cases k <;> simp [resolveTile, hpu, hk]

/-- Whenever the move found a target tile, the route's final tile update
leaves every row bearing that tile's id consumed: repainted with the
mover's colour, power-up flag cleared, power-up kind nulled. -/
theorem resolveTile_target_consumed {tiles : List GameTile} {t : GameTile} {player : Player}
    {x y : Int} :
    ((resolveTile tiles (some t) player x y).1.all
      fun u => !(u.id == t.id) ||
        (u.color == some player.color && !u.hasPowerUp && u.powerUpType == none)) = true := by
  have key : ∀ ts : List GameTile,
      ((consumeTileById ts t.id player.color).all
        fun u => !(u.id == t.id) ||
          (u.color == some player.color && !u.hasPowerUp && u.powerUpType == none)) = true := by
    intro ts
    rw [consumeTileById, List.all_map, List.all_eq_true]
    intro u _
    by_cases h : u.id = t.id <;> simp [Function.comp, h]
  rcases hpu : t.hasPowerUp with _ | _
  · rw [resolveTile_no_powerup hpu]
    exact key tiles
  · rcases hk : t.powerUpType with _ | k
    · simpa [resolveTile, hpu, hk] using key tiles
    · cases k
      · simpa [resolveTile, hpu, hk] using key tiles
      · simpa [resolveTile, hpu, hk] using key tiles
      · simpa [resolveTile, hpu, hk] using
          key (sprayPaint tiles (adjacentTiles tiles x y) player.color)

/-- The adjacency filter reads only the coordinate fields. -/
theorem adjacentFilter_coords (x y : Int) (u v : GameTile) (hx : v.x = u.x)
    (hy : v.y = u.y) : adjacentFilter x y v = adjacentFilter x y u := by
  rw [adjacentFilter, adjacentFilter, hx, hy]

/-- Pointwise principle for tile maps that preserve coordinates: to check a
property on all rows passing the adjacency filter it suffices to check the
image of each adjacent source row. -/
theorem all_adjacent_of_map (x y : Int) (ts : List GameTile) (f : GameTile → GameTile)
    (q : GameTile → Bool)
    (hx : ∀ u, (f u).x = u.x) (hy : ∀ u, (f u).y = u.y)
    (h : ∀ u ∈ ts, adjacentFilter x y u = true → q (f u) = true) :
    ((ts.map f).all fun v => !(adjacentFilter x y v) || q v) = true := by
  rw [List.all_map, List.all_eq_true]
  intro u hu
  dsimp only [Function.comp]
  by_cases hadj : adjacentFilter x y u = true
  · rw [h u hu hadj]
    simp
  · have hfu : adjacentFilter x y (f u) = false := by
      rw [adjacentFilter_coords x y u (f u) (hx u) (hy u)]
      exact Bool.eq_false_iff.mpr hadj
    simp [hfu]

/-- After a SPRAY resolution, every row satisfying the adjacency filter
bears the mover's colour. -/
theorem resolveTile_spray_adjacent_colored {tiles : List GameTile} {t : GameTile}
    {player : Player} {x y : Int} (hpu : t.hasPowerUp = true)
    (hk : t.powerUpType = some .SPRAY) :
    ((resolveTile tiles (some t) player x y).1.all
      fun u => !(adjacentFilter x y u) || (u.color == some player.color)) = true := by
  rw [resolveTile_spray hpu hk]
  dsimp only
  rw [sprayPaint_eq, consumeTileById, List.map_map]
  apply all_adjacent_of_map
  · intro u
    dsimp only [Function.comp]
    split <;> split <;> rfl
  · intro u
    dsimp only [Function.comp]
    split <;> split <;> rfl
  · intro u hu hadj
    have hmem : u ∈ adjacentTiles tiles x y := List.mem_filter.mpr ⟨hu, hadj⟩
    have hany : ((adjacentTiles tiles x y).any fun v => v.id == u.id) = true :=
      List.any_eq_true.mpr ⟨u, hmem, by simp⟩
    dsimp only [Function.comp]
    rw [hany]
    by_cases h : u.id = t.id <;> simp [h]

/-- Projections of `applyMove`. -/
theorem applyMove_tiles (g : Game) (player : Player) (pid : String) (x y : Int) :
    (applyMove g player pid x y).game.tiles =
      (resolveTile g.tiles (targetTileOf g x y) player x y).1 := rfl

theorem applyMove_stunTimer (g : Game) (player : Player) (pid : String) (x y : Int) :
    (applyMove g player pid x y).stunTimer =
      (collisionTarget g pid x y).map fun tp => (tp.id, stunDurationMs) := rfl

theorem applyMove_response (g : Game) (player : Player) (pid : String) (x y : Int) :
    (applyMove g player pid x y).response =
      .ok (resolveTile g.tiles (targetTileOf g x y) player x y).2.2 := rfl

/-- Every failing legality check returns before any database write: the
route's returned state is the input state and no timer was scheduled. -/
theorem moveRoute_error_state {g : Game} {pid : String} {x y : Int} {e : MoveError}
    (h : (moveRoute g pid x y).response = .error e) :
    (moveRoute g pid x y).game = g ∧ (moveRoute g pid x y).stunTimer = none := by
  by_cases h1 : g.status = .PLAYING
  case neg => simp [moveRoute, h1]
  rcases hf : g.players.find? (fun p => p.id == pid) with _ | player
  · simp [moveRoute, h1, hf]
  by_cases h2 : player.status = .ACTIVE
  case neg => simp [moveRoute, h1, hf, h2]
  by_cases h3 : isValidMove player.positionX player.positionY x y = true
  case neg => simp [moveRoute, h1, hf, h2, h3]
  by_cases h4 : x < 0 ∨ x ≥ g.boardSize ∨ y < 0 ∨ y ≥ g.boardSize
  case pos => simp [moveRoute, h1, hf, h2, h3, h4]
  exfalso
  have hok : (moveRoute g pid x y).response =
      .ok (resolveTile g.tiles (targetTileOf g x y) player x y).2.2 := by
    simp [moveRoute, h1, hf, h2, h3, h4, applyMove_response]
  rw [hok] at h
  simp at h

/-- The route's adjacency disjunction holds exactly at Chebyshev distance 1. -/
theorem isValidMove_iff_chebyshev (px py x y : Int) :
    isValidMove px py x y = true ↔ max (x - px).natAbs (y - py).natAbs = 1 := by
  simp only [isValidMove, Bool.or_eq_true, Bool.and_eq_true, beq_iff_eq]
  omega

/-- If a collision happened, every row bearing the collided player's id is
STUNNED in the route's output. -/
theorem applyMove_all_stunned {g : Game} {player tp : Player} {pid : String} {x y : Int}
    (hc : collisionTarget g pid x y = some tp) :
    ((applyMove g player pid x y).game.players.all
      fun p => !(p.id == tp.id) || (p.status == PlayerStatus.STUNNED)) = true := by
  have hc' : g.players.find?
      (fun p => p.positionX == x && p.positionY == y && !(p.id == pid)) = some tp := hc
  have htp : (tp.positionX == x && tp.positionY == y && !(tp.id == pid)) = true := by
    simpa using List.find?_some hc'
  have htpne : ¬ tp.id = pid := by
    simp only [Bool.and_eq_true, Bool.not_eq_true'] at htp
    simpa using htp.2
  simp only [applyMove]
  rw [hc]
  simp only [setScoreById, setPositionById, stunById, List.map_map, List.all_map,
    List.all_eq_true]
  intro p _
  dsimp only [Function.comp]
  by_cases h : p.id = tp.id
  · by_cases hpd : p.id = pid
    · exact absurd (h.symm.trans hpd) htpne
    · simp [h, hpd, htpne, Ne.symm htpne]
  · by_cases hpd : p.id = pid <;> simp [h, hpd, htpne, Ne.symm htpne]

/-- A stun-expiry callback finding its player sets that player ACTIVE. -/
theorem fireStunExpiry_present {g : Game} {pid : String}
    (h : (g.players.any fun p => p.id == pid) = true) :
    statusOf (fireStunExpiry g pid) pid = some .ACTIVE := by
  rw [fireStunExpiry, if_pos h, statusOf]
  dsimp only
  rw [find?_pid_map pid _ (fun p => by split <;> rfl)]
  rcases hf : g.players.find? (fun p => p.id == pid) with _ | q
  · exfalso
    rw [List.find?_eq_none] at hf
    rcases List.any_eq_true.mp h with ⟨q, hq, hq2⟩
    exact hf q hq hq2
  · rw [hf]
    have hq' : q.id = pid := by simpa using List.find?_some hf
    simp [hq']

/-- A stun-expiry callback whose player row no longer exists fails and
leaves the database unchanged. -/
theorem fireStunExpiry_absent {g : Game} {pid : String}
    (h : (g.players.any fun p => p.id == pid) = false) :
    fireStunExpiry g pid = g := by
  rw [fireStunExpiry, if_neg]
  simp [h]

/-- Removal never touches the pending-timer list: the route kept no handle. -/
theorem removePlayer_pendingStuns (s : SessionState) (pid : String) :
    (removePlayer s pid).pendingStuns = s.pendingStuns := rfl

/-- After removal, no row bears the removed player's id. -/
theorem removePlayer_gone (s : SessionState) (pid : String) :
    ((removePlayer s pid).game.players.any fun p => p.id == pid) = false := by
  rw [removePlayer]
  dsimp only
  rw [Bool.eq_false_iff]
  intro hany
  rcases List.any_eq_true.mp hany with ⟨q, hq, hq2⟩
  rcases List.mem_filter.mp hq with ⟨_, hq3⟩
  rw [hq2] at hq3
  simp at hq3

/-- The eight Chebyshev neighbours of `(x, y)`. -/
def neighborCoords (x y : Int) : List (Int × Int) :=
  [(x-1, y-1), (x-1, y), (x-1, y+1), (x, y-1), (x, y+1), (x+1, y-1), (x+1, y), (x+1, y+1)]

/-- Every row passing the adjacency filter sits on one of the eight
neighbour coordinates. -/
theorem adjacent_mem_neighborCoords {x y : Int} {t : GameTile}
    (h : adjacentFilter x y t = true) : (t.x, t.y) ∈ neighborCoords x y := by
  simp only [adjacentFilter, Bool.and_eq_true, Bool.not_eq_true', decide_eq_true_eq,
    Bool.and_eq_false_iff, beq_eq_false_iff_ne] at h
  obtain ⟨⟨hdx, hdy⟩, hcen⟩ := h
  have hx3 : t.x = x - 1 ∨ t.x = x ∨ t.x = x + 1 := by omega
  have hy3 : t.y = y - 1 ∨ t.y = y ∨ t.y = y + 1 := by omega
  have hcen' : ¬ (t.x = x ∧ t.y = y) := by
    rcases hcen with h | h
    · exact fun hc => h hc.1
    · exact fun hc => h hc.2
  rcases hx3 with h | h | h <;> rcases hy3 with h' | h' | h' <;>
    simp [neighborCoords, h, h', Prod.ext_iff] <;> omega
  -- the centre combination is impossible

/-- With pairwise-distinct tile coordinates, at most eight rows pass the
adjacency filter. -/
theorem adjacentTiles_length_le_eight (ts : List GameTile) (x y : Int)
    (hnd : (ts.map fun t => (t.x, t.y)).Nodup) :
    (adjacentTiles ts x y).length ≤ 8 := by
  classical
  have hsub : List.Sublist ((adjacentTiles ts x y).map fun t => (t.x, t.y))
      (ts.map fun t => (t.x, t.y)) :=
    (List.filter_sublist ts).map _
  have hnd2 : ((adjacentTiles ts x y).map fun t => (t.x, t.y)).Nodup := hnd.sublist hsub
  have hmem : ∀ q ∈ (adjacentTiles ts x y).map (fun t => (t.x, t.y)),
      q ∈ neighborCoords x y := by
    intro q hq
    rcases List.mem_map.mp hq with ⟨t, ht, rfl⟩
    exact adjacent_mem_neighborCoords (List.mem_filter.mp ht).2
  have hcard1 : ((adjacentTiles ts x y).map fun t => (t.x, t.y)).toFinset.card =
      ((adjacentTiles ts x y).map fun t => (t.x, t.y)).length :=
    List.toFinset_card_of_nodup hnd2
  have hcard2 : ((adjacentTiles ts x y).map fun t => (t.x, t.y)).toFinset ⊆
      (neighborCoords x y).toFinset := by
    intro q hq
    rw [List.mem_toFinset] at *
    exact hmem q hq
  have hcard3 := Finset.card_le_card hcard2
  have hcard4 : (neighborCoords x y).toFinset.card ≤ (neighborCoords x y).length :=
    (neighborCoords x y).toFinset_card_le
  have hlen : ((adjacentTiles ts x y).map fun t => (t.x, t.y)).length =
      (adjacentTiles ts x y).length := List.length_map _ _
  have hlen8 : (neighborCoords x y).length = 8 := rfl
  omega

/-! ### Lemmas about the join and start routes -/

theorem joinRoute_full (g : Game) (req : JoinRequest) (h1 : g.status = .WAITING)
    (h2 : (g.players.length : Int) ≥ g.maxPlayers) :
    (joinRoute g req).response = .error .gameFull ∧ (joinRoute g req).game = g := by
  simp [joinRoute, h1, h2]

theorem joinRoute_duplicate (g : Game) (req : JoinRequest) (h1 : g.status = .WAITING)
    (h2 : ¬ (g.players.length : Int) ≥ g.maxPlayers)
    (h3 : (g.players.any fun p => p.userId == req.userId) = true) :
    (joinRoute g req).response = .error .duplicateJoin ∧ (joinRoute g req).game = g := by
  have h3' : ∃ p ∈ g.players, p.userId = req.userId := by simpa using h3
  simp [joinRoute, h1, h2, h3']

theorem joinRoute_maxPlayers (g : Game) (req : JoinRequest) :
    (joinRoute g req).game.maxPlayers = g.maxPlayers := by
  by_cases h1 : g.status = .WAITING
  case neg => simp [joinRoute, h1]
  by_cases h2 : (g.players.length : Int) ≥ g.maxPlayers
  case pos => simp [joinRoute, h1, h2]
  by_cases h3 : ∃ p ∈ g.players, p.userId = req.userId
  · simp [joinRoute, h1, h2, h3]
  · simp [joinRoute, h1, h2, h3]

theorem joinRoute_players_le (g : Game) (req : JoinRequest)
    (h : (g.players.length : Int) ≤ g.maxPlayers) :
    ((joinRoute g req).game.players.length : Int) ≤ (joinRoute g req).game.maxPlayers := by
  by_cases h1 : g.status = .WAITING
  case neg => simpa [joinRoute, h1] using h
  by_cases h2 : (g.players.length : Int) ≥ g.maxPlayers
  case pos => simpa [joinRoute, h1, h2] using h
  by_cases h3 : ∃ p ∈ g.players, p.userId = req.userId
  case pos => simpa [joinRoute, h1, h2, h3] using h
  have hres : (joinRoute g req).game.players.length = g.players.length + 1 := by
    simp [joinRoute, h1, h2, h3]
  have hmax : (joinRoute g req).game.maxPlayers = g.maxPlayers := joinRoute_maxPlayers g req
  rw [hres, hmax]
  push_cast
  omega

theorem joinMany_players_le (reqs : List JoinRequest) (g : Game)
    (h : (g.players.length : Int) ≤ g.maxPlayers) :
    ((joinMany g reqs).players.length : Int) ≤ (joinMany g reqs).maxPlayers := by
  induction reqs generalizing g with
  | nil => simpa [joinMany] using h
  | cons r rs ih =>
    have hstep : joinMany g (r :: rs) = joinMany (joinRoute g r).game rs := rfl
    rw [hstep]
    refine ih (joinRoute g r).game ?_
    calc ((joinRoute g r).game.players.length : Int)
        ≤ (joinRoute g r).game.maxPlayers := joinRoute_players_le g r h
      _ = (joinRoute g r).game.maxPlayers := rfl

theorem joinMany_maxPlayers (reqs : List JoinRequest) (g : Game) :
    (joinMany g reqs).maxPlayers = g.maxPlayers := by
  induction reqs generalizing g with
  | nil => rfl
  | cons r rs ih =>
    have hstep : joinMany g (r :: rs) = joinMany (joinRoute g r).game rs := rfl
    rw [hstep, ih, joinRoute_maxPlayers]

/-! ### Claims -/

/-- C1 (counterexample): a move whose target `(20, 20)` is both out of the
10×10 board's bounds and not adjacent to the mover at `(1, 1)` fails with
the adjacency error `Invalid move`, not the claimed out-of-bounds error —
the route checks adjacency before bounds. -/
theorem C1_counterexample :
    isValidMove 1 1 20 20 = false ∧
    (20 : Int) ≥ sessionPlaying.boardSize ∧
    (moveRoute sessionPlaying "p1" 20 20).response = .error .illegalMove ∧
    ¬ (moveRoute sessionPlaying "p1" 20 20).response = .error .outOfBounds := by
  decide

/-- C1 (amended): the move route applies its legality checks in the fixed
order: session status PLAYING, player exists, player ACTIVE, target
Chebyshev-adjacent, and only then target within bounds, short-circuiting on
the first failure; in particular a target that is both out of bounds and
not adjacent fails with the adjacency (illegal-move) error because the
adjacency check runs before the bounds check. -/
theorem C1_check_order (g : Game) (pid : String) (x y : Int) :
    (¬ g.status = .PLAYING → (moveRoute g pid x y).response = .error .gameNotActive) ∧
    (g.status = .PLAYING → g.players.find? (fun p => p.id == pid) = none →
      (moveRoute g pid x y).response = .error .playerNotFound) ∧
    (∀ player, g.status = .PLAYING →
      g.players.find? (fun p => p.id == pid) = some player →
      ¬ player.status = .ACTIVE →
      (moveRoute g pid x y).response = .error .playerNotEligible) ∧
    (∀ player, g.status = .PLAYING →
      g.players.find? (fun p => p.id == pid) = some player →
      player.status = .ACTIVE →
      isValidMove player.positionX player.positionY x y = false →
      (moveRoute g pid x y).response = .error .illegalMove) ∧
    (∀ player, g.status = .PLAYING →
      g.players.find? (fun p => p.id == pid) = some player →
      player.status = .ACTIVE →
      isValidMove player.positionX player.positionY x y = true →
      (x < 0 ∨ x ≥ g.boardSize ∨ y < 0 ∨ y ≥ g.boardSize) →
      (moveRoute g pid x y).response = .error .outOfBounds) := by
  refine ⟨?_, ?_, ?_, ?_, ?_⟩
  · intro h1
    simp [moveRoute, h1]
  · intro h1 hf
    simp [moveRoute, h1, hf]
  · intro player h1 hf h2
    simp [moveRoute, h1, hf, h2]
  · intro player h1 hf h2 h3
    simp [moveRoute, h1, hf, h2, h3]
  · intro player h1 hf h2 h3 h4
    simp [moveRoute, h1, hf, h2, h3, h4]

theorem C1_witness :
    (moveRoute sessionPlaying "p1" 20 20).response = .error .illegalMove :=
  (C1_check_order sessionPlaying "p1" 20 20).2.2.2.1
    ⟨"p1", "u1", "#FF6B6B", 1, 1, 0, .ACTIVE⟩ (by decide) (by decide) (by decide) (by decide)

/-- C2: a move request failing any legality check mutates nothing: the
route's resulting state is exactly the input state — every player's
position, score and status and every tile's colour and power-up fields
included — and no stun timer is scheduled; only an error is produced. -/
theorem C2_no_mutation_on_failure (g : Game) (pid : String) (x y : Int) (e : MoveError)
    (h : (moveRoute g pid x y).response = .error e) :
    (moveRoute g pid x y).game = g ∧ (moveRoute g pid x y).stunTimer = none :=
  moveRoute_error_state h

theorem C2_witness :
    (moveRoute waitingGame "p1" 2 2).game = waitingGame ∧
    (moveRoute waitingGame "p1" 2 2).stunTimer = none :=
  C2_no_mutation_on_failure waitingGame "p1" 2 2 .gameNotActive (by decide)

/-- C3: the route's adjacency disjunction accepts a target exactly when its
Chebyshev distance from the prior position is 1 (the 8 surrounding cells,
not the current cell, and nothing farther); and every accepted move leaves
the mover exactly at the submitted target. -/
theorem C3_position_and_adjacency (g : Game) (pid : String) (x y : Int)
    (c : Option PowerUpType) :
    (∀ px py : Int, isValidMove px py x y = true ↔
        max (x - px).natAbs (y - py).natAbs = 1) ∧
    ((moveRoute g pid x y).response = .ok c →
      positionOf (moveRoute g pid x y).game pid = some (x, y)) := by
  constructor
  · intro px py
    exact isValidMove_iff_chebyshev px py x y
  · intro h
    obtain ⟨h1, player, hf, h2, h3, h4, hres⟩ := moveRoute_ok_inv h
    rw [hres]
    exact positionOf_applyMove hf

theorem C3_witness :
    isValidMove 1 1 2 2 = true ∧
    positionOf (moveRoute sessionPlaying "p1" 2 2).game "p1" = some (2, 2) :=
  ⟨((C3_position_and_adjacency sessionPlaying "p1" 2 2 none).1 1 1).mpr (by decide),
   (C3_position_and_adjacency sessionPlaying "p1" 2 2 none).2 (by decide)⟩

/-- C4: for an accepted move onto a power-up-free target tile, if the
tile's colour is unset or differs from the mover's, the score rises by
exactly 1 and every row of that tile ends bearing the mover's colour; if
the tile already bears the mover's colour, the score is unchanged; hence
if the exact same move is accepted a second time it adds 0 to the score. -/
theorem C4_paint_scoring (g : Game) (pid : String) (x y : Int) (c : Option PowerUpType)
    (player : Player) (t : GameTile)
    (h : (moveRoute g pid x y).response = .ok c)
    (hp : g.players.find? (fun p => p.id == pid) = some player)
    (ht : targetTileOf g x y = some t)
    (hnopu : t.hasPowerUp = false) :
    (¬ t.color = some player.color →
      scoreOf (moveRoute g pid x y).game pid = some (player.score + 1) ∧
      ((moveRoute g pid x y).game.tiles.all
        fun u => !(u.id == t.id) || (u.color == some player.color)) = true) ∧
    (t.color = some player.color →
      scoreOf (moveRoute g pid x y).game pid = some player.score) ∧
    (∀ c2, (moveRoute (moveRoute g pid x y).game pid x y).response = .ok c2 →
      scoreOf (moveRoute (moveRoute g pid x y).game pid x y).game pid =
        scoreOf (moveRoute g pid x y).game pid) := by
  obtain ⟨h1, player', hf, h2, h3, h4, hres⟩ := moveRoute_ok_inv h
  have heq : player' = player := by
    rw [hf] at hp
    exact Option.some.inj hp
  subst heq
  have hscore : scoreOf (moveRoute g pid x y).game pid =
      some (if t.color == none || !(t.color == some player'.color)
            then player'.score + 1 else player'.score) := by
    rw [hres, scoreOf_applyMove hf, ht, resolveTile_no_powerup hnopu]
  have htiles : ((moveRoute g pid x y).game.tiles.all
      fun u => !(u.id == t.id) || (u.color == some player'.color)) = true := by
    have hcons : ((resolveTile g.tiles (some t) player' x y).1.all
        fun u => !(u.id == t.id) ||
          (u.color == some player'.color && !u.hasPowerUp && u.powerUpType == none)) = true :=
      resolveTile_target_consumed
    rw [hres, applyMove_tiles, ht]
    rw [List.all_eq_true] at hcons ⊢
    intro u hu
    have h5 := hcons u hu
    by_cases hid : (u.id == t.id) = true
    · simp only [hid, Bool.not_true, Bool.false_or, Bool.and_eq_true] at h5 ⊢
      exact h5.1.1
    · rw [Bool.not_eq_true] at hid
      simp [hid]
  have hfind1 : (moveRoute g pid x y).game.players.find? (fun p => p.id == pid) =
      some { player' with positionX := x, positionY := y, score := (resolveTile g.tiles (targetTileOf g x y) player' x y).2.1 } := by
    rw [hres]
    exact applyMove_find?_mover hf
  have htile1 : targetTileOf (moveRoute g pid x y).game x y =
      some { t with color := some player'.color, hasPowerUp := false, powerUpType := none } := by
    rw [hres, targetTileOf, applyMove_tiles, ht, resolveTile_no_powerup hnopu]
    dsimp only
    rw [find?_consumeTileById]
    have ht' : g.tiles.find? (fun u => u.x == x && u.y == y) = some t := ht
    rw [ht']
    simp
  refine ⟨?_, ?_, ?_⟩
  · intro hne
    have hcnd : (t.color == some player'.color) = false := by simpa using hne
    refine ⟨?_, htiles⟩
    rw [hscore, hcnd]
    simp
  · intro hsame
    have hcnd : (t.color == some player'.color) = true := by simpa using hsame
    rw [hscore, hcnd]
    have hnn : (t.color == (none : Option String)) = false := by
      rw [hsame]
      simp
    rw [hnn]
    simp
  · intro c2 h6
    obtain ⟨h1b, playerB, hfB, h2b, h3b, h4b, hresB⟩ := moveRoute_ok_inv h6
    have hBeq : playerB =
        { player' with positionX := x, positionY := y, score := (resolveTile g.tiles (targetTileOf g x y) player' x y).2.1 } := by
      rw [hfind1] at hfB
      exact (Option.some.inj hfB).symm
    have hscoreB : scoreOf (moveRoute (moveRoute g pid x y).game pid x y).game pid =
        some (resolveTile (moveRoute g pid x y).game.tiles
          (targetTileOf (moveRoute g pid x y).game x y) playerB x y).2.1 := by
      rw [hresB]
      exact scoreOf_applyMove hfB
    rw [htile1] at hscoreB
    have hnopu1 : GameTile.hasPowerUp
        { t with color := some player'.color, hasPowerUp := false, powerUpType := none } = false := rfl
    rw [resolveTile_no_powerup hnopu1] at hscoreB
    have hcolB : playerB.color = player'.color := by rw [hBeq]
    have hg1score : scoreOf (moveRoute g pid x y).game pid = some playerB.score := by
      rw [scoreOf, hfind1, hBeq]
      rfl
    rw [hscoreB, hg1score]
    simp [hcolB]

theorem C4_witness :
    scoreOf (moveRoute sessionPlaying "p1" 2 2).game "p1" = some (0 + 1) ∧
    ((moveRoute sessionPlaying "p1" 2 2).game.tiles.all
      fun u => !(u.id == "t22") || (u.color == some "#FF6B6B")) = true ∧
    scoreOf (moveRoute ownTileGame "p1" 2 2).game "p1" = some 5 := by
  have hA := (C4_paint_scoring sessionPlaying "p1" 2 2 none
    ⟨"p1", "u1", "#FF6B6B", 1, 1, 0, .ACTIVE⟩ ⟨"t22", 2, 2, none, false, none⟩
    (by decide) (by decide) (by decide) (by decide)).1 (by decide)
  have hB := (C4_paint_scoring ownTileGame "p1" 2 2 none
    ⟨"p1", "u1", "#FF6B6B", 1, 1, 5, .ACTIVE⟩ ⟨"t22", 2, 2, some "#FF6B6B", false, none⟩
    (by decide) (by decide) (by decide) (by decide)).2.1 (by decide)
  exact ⟨hA.1, hA.2, hB⟩

/-- C5: an accepted move onto a tile whose power-up flag is set consumes
the power-up (flag cleared, kind nulled on every row with that tile's id)
and reports it as `powerUpCollected`; SPEED or JUMP adds a flat +2 on top
of the base single-tile paint score; SPRAY unconditionally recolours every
existing tile row passing the Chebyshev-adjacency filter around the target
(excluding the target itself) with the mover's colour and adds +1 per such
row regardless of prior owner, on top of the base paint score — and when
tile coordinates are pairwise distinct there are at most 8 such rows. -/
theorem C5_powerup_effects (g : Game) (pid : String) (x y : Int) (c : Option PowerUpType)
    (player : Player) (t : GameTile)
    (h : (moveRoute g pid x y).response = .ok c)
    (hp : g.players.find? (fun p => p.id == pid) = some player)
    (ht : targetTileOf g x y = some t)
    (hpu : t.hasPowerUp = true) :
    c = t.powerUpType ∧
    ((moveRoute g pid x y).game.tiles.all
      fun u => !(u.id == t.id) || (!u.hasPowerUp && u.powerUpType == none)) = true ∧
    ((t.powerUpType = some .SPEED ∨ t.powerUpType = some .JUMP) →
      scoreOf (moveRoute g pid x y).game pid =
        some ((if t.color == none || !(t.color == some player.color)
               then player.score + 1 else player.score) + 2)) ∧
    (t.powerUpType = some .SPRAY →
      scoreOf (moveRoute g pid x y).game pid =
        some ((if t.color == none || !(t.color == some player.color)
               then player.score + 1 else player.score)
          + (adjacentTiles g.tiles x y).length) ∧
      ((moveRoute g pid x y).game.tiles.all
        fun u => !(adjacentFilter x y u) || (u.color == some player.color)) = true ∧
      ((g.tiles.map fun u => (u.x, u.y)).Nodup →
        (adjacentTiles g.tiles x y).length ≤ 8)) := by
  obtain ⟨h1, player', hf, h2, h3, h4, hres⟩ := moveRoute_ok_inv h
  have heq : player' = player := by
    rw [hf] at hp
    exact Option.some.inj hp
  subst heq
  refine ⟨?_, ?_, ?_, ?_⟩
  · have hcoll : c = (resolveTile g.tiles (targetTileOf g x y) player' x y).2.2 := by
      rw [hres, applyMove_response] at h
      exact (Except.ok.inj h).symm
    rw [hcoll, ht]
    exact resolveTile_collected hpu
  · have hcons : ((resolveTile g.tiles (some t) player' x y).1.all
        fun u => !(u.id == t.id) ||
          (u.color == some player'.color && !u.hasPowerUp && u.powerUpType == none)) = true :=
      resolveTile_target_consumed
    rw [hres, applyMove_tiles, ht]
    rw [List.all_eq_true] at hcons ⊢
    intro u hu
    have h5 := hcons u hu
    by_cases hid : (u.id == t.id) = true
    · simp only [hid, Bool.not_true, Bool.false_or, Bool.and_eq_true] at h5 ⊢
      exact ⟨h5.1.2, h5.2⟩
    · rw [Bool.not_eq_true] at hid
      simp [hid]
  · intro hk
    rw [hres, scoreOf_applyMove hf, ht, resolveTile_speed_jump hpu hk]
  · intro hk
    refine ⟨?_, ?_, ?_⟩
    · rw [hres, scoreOf_applyMove hf, ht, resolveTile_spray hpu hk]
    · rw [hres, applyMove_tiles, ht]
      exact resolveTile_spray_adjacent_colored hpu hk
    · intro hnd
      exact adjacentTiles_length_le_eight g.tiles x y hnd

theorem C5_witness :
    (moveRoute sprayGame "p1" 1 1).response = .ok (some .SPRAY) ∧
    scoreOf (moveRoute sprayGame "p1" 1 1).game "p1" = some 6 ∧
    ((moveRoute sprayGame "p1" 1 1).game.tiles.all
      fun u => !(adjacentFilter 1 1 u) || (u.color == some "R")) = true ∧
    (adjacentTiles sprayGame.tiles 1 1).length ≤ 8 ∧
    scoreOf (moveRoute speedGame "p1" 1 1).game "p1" = some 5 := by
  have hS := C5_powerup_effects sprayGame "p1" 1 1 (some .SPRAY)
    ⟨"p1", "u1", "R", 0, 0, 0, .ACTIVE⟩ ⟨"t11", 1, 1, some "B", true, some .SPRAY⟩
    (by decide) (by decide) (by decide) (by decide)
  have hP := C5_powerup_effects speedGame "p1" 1 1 (some .SPEED)
    ⟨"p1", "u1", "R", 0, 0, 3, .ACTIVE⟩ ⟨"t11", 1, 1, some "R", true, some .SPEED⟩
    (by decide) (by decide) (by decide) (by decide)
  obtain ⟨-, -, -, hspray⟩ := hS
  obtain ⟨hs1, hs2, hs3⟩ := hspray rfl
  obtain ⟨-, -, hsj, -⟩ := hP
  refine ⟨by decide, ?_, hs2, hs3 (by decide), ?_⟩
  · rw [hs1]
    decide
  · rw [hsj (Or.inl rfl)]
    decide

/-- C6 (counterexample): after a collision schedules a stun-expiry for
`"p2"` and `"p2"` is then removed, the pending stun-expiry is still
pending — removal does not cancel it, because the move route discarded its
`setTimeout` handle; the claim's parenthetical cancellation is false. -/
theorem C6_counterexample :
    ((removePlayer (moveStep ⟨sessionPlaying, []⟩ "p1" 2 2).1 "p2").game.players.any
      fun p => p.id == "p2") = false ∧
    ((removePlayer (moveStep ⟨sessionPlaying, []⟩ "p1" 2 2).1 "p2").pendingStuns.any
      fun t => t.playerId == "p2") = true := by
  decide

/-- C6 (amended): when an accepted move's target tile is occupied by
another player, that player becomes STUNNED and a stun-expiry of exactly
3000 ms is scheduled for them; when the expiry callback fires it sets the
player ACTIVE if their row still exists, and if the player was removed
first the callback's update fails and changes nothing — so no late
reversion to ACTIVE is observable, but the pending timer is not canceled
by removal (the route keeps no handle to it). -/
theorem C6_stun_behavior (g : Game) (pid : String) (x y : Int) (c : Option PowerUpType)
    (tp : Player) :
    ((moveRoute g pid x y).response = .ok c → collisionTarget g pid x y = some tp →
      (moveRoute g pid x y).stunTimer = some (tp.id, 3000) ∧
      ((moveRoute g pid x y).game.players.all
        fun p => !(p.id == tp.id) || (p.status == PlayerStatus.STUNNED)) = true) ∧
    (∀ g2 : Game, (g2.players.any fun p => p.id == tp.id) = true →
      statusOf (fireStunExpiry g2 tp.id) tp.id = some .ACTIVE) ∧
    (∀ g2 : Game, (g2.players.any fun p => p.id == tp.id) = false →
      fireStunExpiry g2 tp.id = g2) ∧
    (∀ s : SessionState, (removePlayer s tp.id).pendingStuns = s.pendingStuns ∧
      ((removePlayer s tp.id).game.players.any fun p => p.id == tp.id) = false) := by
  refine ⟨?_, ?_, ?_, ?_⟩
  · intro h hc
    obtain ⟨h1, player, hf, h2, h3, h4, hres⟩ := moveRoute_ok_inv h
    constructor
    · rw [hres, applyMove_stunTimer, hc]
      rfl
    · rw [hres]
      exact applyMove_all_stunned hc
  · intro g2 h
    exact fireStunExpiry_present h
  · intro g2 h
    exact fireStunExpiry_absent h
  · intro s
    exact ⟨removePlayer_pendingStuns s tp.id, removePlayer_gone s tp.id⟩

theorem C6_witness :
    (moveRoute sessionPlaying "p1" 2 2).stunTimer = some ("p2", 3000) ∧
    statusOf (moveRoute sessionPlaying "p1" 2 2).game "p2" = some .STUNNED ∧
    statusOf (fireStunExpiry (moveRoute sessionPlaying "p1" 2 2).game "p2") "p2" =
      some .ACTIVE := by
  have h := C6_stun_behavior sessionPlaying "p1" 2 2 none
    ⟨"p2", "u2", "#4ECDC4", 2, 2, 0, .ACTIVE⟩
  refine ⟨(h.1 (by decide) (by decide)).1, by decide, ?_⟩
  exact h.2.1 (moveRoute sessionPlaying "p1" 2 2).game (by decide)

/-- C7 (counterexample): starting `waitingGame` (WAITING, two players)
succeeds but leaves the previously painted tile `(0, 0)` bearing the
colour "X", which belongs to no player — so start neither resets the board
to fresh unpainted tiles nor repaints only the players' starting tiles. -/
theorem C7_counterexample :
    (startRoute waitingGame).response = .ok () ∧
    ¬ (∀ t ∈ (startRoute waitingGame).game.tiles,
        t.color = none ∨ ∃ p ∈ waitingGame.players, t.color = some p.color) := by
  decide

/-- C7 (amended): the start route fails when the session is not WAITING,
fails with the insufficient-players error when it is WAITING with fewer
than 2 players, and otherwise only sets the status to PLAYING and
schedules a `timeLimit * 1000` ms finish timer — the board is not reset,
no starting tiles are assigned, and nothing is painted (tiles and players
are returned untouched). -/
theorem C7_start_route (g : Game) :
    (¬ g.status = .WAITING → startRoute g = ⟨g, .error .notWaiting, none⟩) ∧
    (g.status = .WAITING → g.players.length < 2 →
      startRoute g = ⟨g, .error .insufficientPlayers, none⟩) ∧
    (g.status = .WAITING → ¬ g.players.length < 2 →
      startRoute g = ⟨{ g with status := .PLAYING }, .ok (), some (g.timeLimit * 1000)⟩) := by
  refine ⟨?_, ?_, ?_⟩
  · intro h1
    simp [startRoute, h1]
  · intro h1 h2
    simp [startRoute, h1, h2]
  · intro h1 h2
    simp [startRoute, h1, h2]

theorem C7_witness :
    startRoute waitingGame =
      ⟨{ waitingGame with status := .PLAYING }, .ok (), some (120 * 1000)⟩ :=
  (C7_start_route waitingGame).2.2 (by decide) (by decide)

/-- C8 (counterexample): the finish-timer callback applied to a session
that is not PLAYING (here: WAITING) still moves it to FINISHED — the
callback has no still-PLAYING guard. -/
theorem C8_counterexample :
    ¬ waitingGame.status = .PLAYING ∧
    (fireGameTimeout waitingGame).status = .FINISHED := by
  decide

/-- C8 (amended): a successful start schedules the finish timer with delay
exactly `timeLimit * 1000` milliseconds, and when that timer fires its
callback unconditionally sets the session status to FINISHED, whatever the
status at fire time — there is no still-PLAYING guard, and no cancellation
mechanism exists (the `setTimeout` handle is discarded and the HTTP API
has no restart endpoint). -/
theorem C8_timer_behavior (g : Game) :
    (g.status = .WAITING → ¬ g.players.length < 2 →
      (startRoute g).finishTimerMs = some (g.timeLimit * 1000)) ∧
    (fireGameTimeout g).status = .FINISHED := by
  constructor
  · intro h1 h2
    simp [startRoute, h1, h2]
  · rfl

theorem C8_witness :
    (startRoute waitingGame).finishTimerMs = some (120 * 1000) :=
  (C8_timer_behavior waitingGame).1 (by decide) (by decide)

/-- C9: a join into a WAITING session already holding `maxPlayers` players
fails with the capacity error, a join with an identity already present
fails with the duplicate-join error, both leaving the state (and so the
player count) unchanged; and starting from any state within capacity, the
player count never exceeds `maxPlayers` after any sequence of joins. -/
theorem C9_join_capacity (g : Game) (req : JoinRequest) (reqs : List JoinRequest) :
    (g.status = .WAITING → (g.players.length : Int) ≥ g.maxPlayers →
      (joinRoute g req).response = .error .gameFull ∧ (joinRoute g req).game = g) ∧
    (g.status = .WAITING → ¬ (g.players.length : Int) ≥ g.maxPlayers →
      (g.players.any fun p => p.userId == req.userId) = true →
      (joinRoute g req).response = .error .duplicateJoin ∧ (joinRoute g req).game = g) ∧
    ((g.players.length : Int) ≤ g.maxPlayers →
      ((joinMany g reqs).players.length : Int) ≤ g.maxPlayers) := by
  refine ⟨joinRoute_full g req, joinRoute_duplicate g req, ?_⟩
  intro h
  have h1 := joinMany_players_le reqs g h
  rwa [joinMany_maxPlayers] at h1

theorem C9_witness :
    (joinRoute fullGame joinReq3).response = .error .gameFull ∧
    (joinRoute fullGame joinReq3).game = fullGame ∧
    (joinRoute oneGame joinReqDup).response = .error .duplicateJoin ∧
    ((joinMany freshGame [joinReq1, joinReq2, joinReq3]).players.length : Int) ≤
      freshGame.maxPlayers := by
  have hA := (C9_join_capacity fullGame joinReq3 []).1 (by decide) (by decide)
  have hB := (C9_join_capacity oneGame joinReqDup []).2.1 (by decide) (by decide) (by decide)
  have hC := (C9_join_capacity freshGame joinReq1 [joinReq1, joinReq2, joinReq3]).2.2
    (by decide)
  exact ⟨hA.1, hA.2, hB.1, hC⟩

/-- C10: the join route creates a full `boardSize × boardSize` grid of tile
rows on every successful join, so after two successful joins into a fresh
game the coordinate `(0, 0)` is carried by two distinct tile rows — tile
coordinates are not unique, contradicting the uniqueness the rest of the
code assumes (`find` by coordinate, at-most-8 spray neighbours). -/
theorem C10_duplicate_tiles :
    (joinRoute freshGame joinReq1).response =
      .ok ⟨"p1", "u1", "#FF6B6B", 0, 0, 0, .ACTIVE⟩ ∧
    (joinRoute (joinRoute freshGame joinReq1).game joinReq2).response =
      .ok ⟨"p2", "u2", "#4ECDC4", 1, 1, 0, .ACTIVE⟩ ∧
    ((joinMany freshGame [joinReq1, joinReq2]).tiles.filter
      fun t => t.x == 0 && t.y == 0).length = 2 := by
  decide

end PogoPainter
